import Mathlib

/-!
Verification of the local data layer of the medical appointment app
(`storageService` in `src/services/storage.ts`, `statisticsService` in
`statistics.ts`, `notificationService` in `notificationService.ts`).

Modelling conventions (shallow embedding):
* JSON values are the inductive `JValue`.  `AsyncStorage` is a map from
  string keys to cells; a cell is `absent`, `good v` (the medium holds the
  JSON serialization of `v`; `JSON.parse ∘ JSON.stringify = id` on JSON
  values), or `corrupt` (the medium holds a string on which `JSON.parse`
  throws).
* I/O failures of the external `AsyncStorage` collaborator are an oracle
  `Env` saying, per key, whether `AsyncStorage.getItem` / `setItem` throws.
* Async functions are state-passing functions; a `Bool` component `true`
  models a rejected promise (a thrown error).  `Date.now()` instants are
  passed explicitly as `Nat` epoch milliseconds; the ISO-8601 `createdAt`
  timestamp of a notification is modelled by its epoch-millisecond value.
* JavaScript truthiness of JSON values is `jsFalsy`; `x || y` on them is
  `if jsFalsy x then y else x`, and `defaultValue || null` is
  `defaultOrNull`.
-/

/-- A JSON value, the domain of what `JSON.parse` can produce and
`JSON.stringify` can consume. -/
inductive JValue where
  | null
  | bool (b : Bool)
  | num (n : Int)
  | str (s : String)
  | arr (elems : List JValue)
  | obj (fields : List (String × JValue))

/-- JavaScript falsiness restricted to JSON values: `null`, `false`, `0`
and the empty string are falsy; arrays and objects are always truthy.
(`undefined`/`NaN` do not occur as JSON values.) -/
def jsFalsy : JValue → Bool
  | JValue.null => true
  | JValue.bool b => !b
  | JValue.num n => n == 0
  | JValue.str s => s == ""
  | JValue.arr _ => false
  | JValue.obj _ => false

/-- JavaScript property access `v.k` on a JSON value: on `null` it throws a
TypeError (`Except.error`), on an object it returns the field or `undefined`
(`Option`), on every other JSON value it returns `undefined`. -/
def jsGetProp : JValue → String → Except Unit (Option JValue)
  | JValue.null, _ => Except.error ()
  | JValue.obj fields, k => Except.ok (fields.lookup k)
  | _, _ => Except.ok none

-- ========================================================================
-- storageService (src/services/storage.ts)
-- ========================================================================

/-- One key's content in the persistent medium (`AsyncStorage`). -/
inductive Cell where
  | absent
  | good (v : JValue)
  | corrupt

/-- The in-memory cache entry `CacheItem<T>` of `storage.ts`. -/
structure CacheItem where
  data : JValue
  timestamp : Nat
  expiry : Option Nat

/-- The mutable state reachable from `storageService`: the persistent
medium and the module-level in-memory `cache` map. -/
structure State where
  medium : String → Cell
  cache : String → Option CacheItem

/-- Per-key failure oracle for the external `AsyncStorage` collaborator:
whether `AsyncStorage.getItem key` / `AsyncStorage.setItem key _` throws. -/
structure Env where
  readFail : String → Bool
  writeFail : String → Bool

/-- Pointwise update of a key-indexed map. -/
def setKey {α : Type} (f : String → α) (key : String) (v : α) : String → α :=
  fun k => if k = key then v else f k

/-- The cache expiry computed by `setItem`:
`expiryMinutes ? Date.now() + expiryMinutes * 60 * 1000 : undefined`
(note that `0` is falsy, so a zero TTL means no expiry). -/
def expiryOf (now : Nat) : Option Nat → Option Nat
  | none => none
  | some m => if m = 0 then none else some (now + m * 60000)

/-- The cache validity test of `getItem`:
`!cached.expiry || cached.expiry > Date.now()` (a zero expiry is falsy). -/
def cacheValid (c : CacheItem) (now : Nat) : Bool :=
  match c.expiry with
  | none => true
  | some e => if e = 0 then true else decide (now < e)

/-- The return value `defaultValue || null` of `getItem`: the default when
it is supplied and truthy, JavaScript `null` (modelled `none`) otherwise. -/
def defaultOrNull (dflt : Option JValue) : Option JValue :=
  match dflt with
  | none => none
  | some d => if jsFalsy d then none else some d

/-- The `AsyncStorage` fallback path of `getItem` (steps 2-3 of its body):
read the medium; on a successful nonempty read, parse and repopulate the
cache (without TTL); a read or parse error is caught and degrades to
`defaultValue || null`; an absent key returns `defaultValue || null`. -/
def readMedium (env : Env) (now : Nat) (key : String) (dflt : Option JValue)
    (st : State) : Option JValue × State :=
  if env.readFail key then (defaultOrNull dflt, st)
  else
    match st.medium key with
    | Cell.good v =>
        (some v, { st with cache := setKey st.cache key (some ⟨v, now, none⟩) })
    | Cell.corrupt => (defaultOrNull dflt, st)
    | Cell.absent => (defaultOrNull dflt, st)

/-- `storageService.getItem(key, defaultValue?)`: cache first (deleting an
expired entry), then the medium, then the default.  Every failure path is
caught inside the function, so it is total: it never throws. -/
def getItem (env : Env) (now : Nat) (key : String) (dflt : Option JValue)
    (st : State) : Option JValue × State :=
  match st.cache key with
  | some c =>
      if cacheValid c now then (some c.data, st)
      else readMedium env now key dflt { st with cache := setKey st.cache key none }
  | none => readMedium env now key dflt st

/-- `storageService.setItem(key, value, expiryMinutes?)`: persist, then
update the cache entry.  A write failure of the medium is rethrown
(`Bool` component `true`) and leaves both medium and cache unchanged. -/
def setItem (env : Env) (now : Nat) (key : String) (v : JValue)
    (expiryMinutes : Option Nat) (st : State) : State × Bool :=
  if env.writeFail key then (st, true)
  else
    ({ medium := setKey st.medium key (Cell.good v),
       cache := setKey st.cache key (some ⟨v, now, expiryOf now expiryMinutes⟩) },
     false)

def appointmentsKey : String := "@MedicalApp:appointments"

def notificationsKey : String := "@MedicalApp:notifications"

def registeredUsersKey : String := "@MedicalApp:registeredUsers"

def settingsKey : String := "@MedicalApp:settings"

/-- `storageService.getAppointments()`:
`this.getItem(STORAGE_KEYS.APPOINTMENTS, [])`. -/
def getAppointments (env : Env) (now : Nat) (st : State) : Option JValue × State :=
  getItem env now appointmentsKey (some (JValue.arr [])) st

/-- `storageService.addAppointment(appointment)`: read the collection, then
save `[...appointments, appointment]`.  Spreading an array appends;
spreading a string spreads its characters; spreading any other value
throws a TypeError (`Bool` component `true`). -/
def addAppointment (env : Env) (now1 now2 : Nat) (x : JValue) (st : State) :
    State × Bool :=
  match getAppointments env now1 st with
  | (some (JValue.arr l), st1) =>
      setItem env now2 appointmentsKey (JValue.arr (l ++ [x])) none st1
  | (some (JValue.str s), st1) =>
      setItem env now2 appointmentsKey
        (JValue.arr ((s.data.map (fun c => JValue.str (String.mk [c]))) ++ [x])) none st1
  | (_, st1) => (st1, true)

/-- A section expression `backup.data.f || fallback` of `restoreFromBackup`
(`d` is the already-truthy `backup.data`, so property access cannot throw). -/
def sectionOr (d : JValue) (field : String) (fallback : JValue) : JValue :=
  match jsGetProp d field with
  | Except.error _ => fallback
  | Except.ok none => fallback
  | Except.ok (some v) => if jsFalsy v then fallback else v

/-- `storageService.restoreFromBackup(backupString)`.  The input is the
outcome of `JSON.parse(backupString)`: `none` when the parse throws (the
catch block logs and rethrows), `some backup` otherwise.  When
`backup.data` is truthy the four sections are written one after the other
with `setItem`; a failing write is rethrown by the catch block, abandoning
the remaining writes. -/
def restoreFromBackup (env : Env) (now : Nat) (parsed : Option JValue)
    (st : State) : State × Bool :=
  match parsed with
  | none => (st, true)
  | some backup =>
    match jsGetProp backup "data" with
    | Except.error _ => (st, true)
    | Except.ok none => (st, false)
    | Except.ok (some d) =>
      if jsFalsy d then (st, false)
      else
        match setItem env now appointmentsKey
            (sectionOr d "appointments" (JValue.arr [])) none st with
        | (st1, true) => (st1, true)
        | (st1, false) =>
          match setItem env now notificationsKey
              (sectionOr d "notifications" (JValue.arr [])) none st1 with
          | (st2, true) => (st2, true)
          | (st2, false) =>
            match setItem env now registeredUsersKey
                (sectionOr d "registeredUsers" (JValue.arr [])) none st2 with
            | (st3, true) => (st3, true)
            | (st3, false) =>
              setItem env now settingsKey
                (sectionOr d "settings" (JValue.obj [])) none st3

/-- An `Env` in which the external medium never fails. -/
def envOK : Env := { readFail := fun _ => false, writeFail := fun _ => false }

/-- A state with an empty medium and an empty cache. -/
def emptyState : State := { medium := fun _ => Cell.absent, cache := fun _ => none }

-- ========================================================================
-- statisticsService (statistics.ts)
-- ========================================================================

/-- An appointment record as read from storage.  `date` is `some s` when
the stored `date` field is the string `s`, and `none` when it is a
non-string value (on which `.split` throws a TypeError). -/
structure Appointment where
  id : String
  patientId : String
  patientName : String
  doctorId : String
  doctorName : String
  date : Option String
  time : String
  specialty : String
  status : String

/-- Split a character list at every occurrence of `sep`, keeping empty
pieces, exactly as JavaScript `String.prototype.split` does. -/
def splitChars (sep : Char) : List Char → List (List Char)
  | [] => [[]]
  | c :: cs =>
    let rest := splitChars sep cs
    if c = sep then [] :: rest
    else
      match rest with
      | r :: rs => (c :: r) :: rs
      | [] => [[c]]

/-- JavaScript `s.split(sep)` for a single-character separator; it never
throws and never returns an empty list (`"".split(sep)` is `[""]`). -/
def jsSplit (sep : Char) (s : String) : List String :=
  (splitChars sep s.data).map (fun cs => String.mk cs)

/-- Template-literal rendering of a possibly-undefined string:
an undefined interpolant prints as the text `undefined`. -/
def jsTemplate : Option String → String
  | none => "undefined"
  | some s => s

/-- The month key `monthKey` computed for one appointment:
`const [day, month, year] = appointment.date.split(w);` then
`month + w + year` where `w` is the slash.  For a string date this never
throws — destructuring a too-short array yields `undefined` components —
so the result is `some key`; only a non-string date (whose `.split` throws,
caught by the surrounding try) yields `none`. -/
def monthKeyOf : Option String → Option String
  | none => none
  | some s =>
    let parts := jsSplit '/' s
    some (jsTemplate parts[1]? ++ "/" ++ jsTemplate parts[2]?)

/-- The `Statistics` record produced by `getGeneralStatistics`
(`statusPercentages` flattened into the three `pct*` fields; the two
histograms are modelled extensionally as key → count). -/
structure Statistics where
  totalAppointments : Nat
  confirmedAppointments : Nat
  pendingAppointments : Nat
  cancelledAppointments : Nat
  totalPatients : Nat
  totalDoctors : Nat
  specialties : String → Nat
  appointmentsByMonth : String → Nat
  pctConfirmed : ℚ
  pctPending : ℚ
  pctCancelled : ℚ

/-- `statisticsService.getGeneralStatistics()` as a function of the parsed
appointment list (the function first loads and parses
`@MedicalApp:appointments`, defaulting to `[]`).  Distinct-id counts use
`new Set(...).size`, modelled by `eraseDups`; each histogram's count at a
key is the number of contributing records; the percentages carry the
`total > 0` guard of the source. -/
def getGeneralStatistics (appointments : List Appointment) : Statistics :=
  let totalAppointments := appointments.length
  let confirmedAppointments :=
    (appointments.filter (fun a => a.status == "confirmed")).length
  let pendingAppointments :=
    (appointments.filter (fun a => a.status == "pending")).length
  let cancelledAppointments :=
    (appointments.filter (fun a => a.status == "cancelled")).length
  { totalAppointments := totalAppointments
    confirmedAppointments := confirmedAppointments
    pendingAppointments := pendingAppointments
    cancelledAppointments := cancelledAppointments
    totalPatients := ((appointments.map (fun a => a.patientId)).eraseDups).length
    totalDoctors := ((appointments.map (fun a => a.doctorId)).eraseDups).length
    specialties := fun k => (appointments.map (fun a => a.specialty)).count k
    appointmentsByMonth := fun k =>
      (appointments.filterMap (fun a => monthKeyOf a.date)).count k
    pctConfirmed :=
      if totalAppointments > 0 then
        (confirmedAppointments : ℚ) / (totalAppointments : ℚ) * 100 else 0
    pctPending :=
      if totalAppointments > 0 then
        (pendingAppointments : ℚ) / (totalAppointments : ℚ) * 100 else 0
    pctCancelled :=
      if totalAppointments > 0 then
        (cancelledAppointments : ℚ) / (totalAppointments : ℚ) * 100 else 0 }

-- ========================================================================
-- notificationService (notificationService.ts)
-- ========================================================================

/-- A notification record.  `createdAt` is the ISO-8601 creation instant,
modelled by its epoch-millisecond value (which is what
`new Date(createdAt).getTime()` recovers for sorting). -/
structure Notification where
  id : String
  userId : String
  title : String
  message : String
  type : String
  read : Bool
  createdAt : Nat
  appointmentId : Option String
deriving DecidableEq

/-- The argument of `createNotification`:
`Omit<Notification, id | createdAt | read>`. -/
structure NotifInput where
  userId : String
  title : String
  message : String
  type : String
  appointmentId : Option String
deriving DecidableEq

/-- The new record built inside `createNotification`:
`id: Date.now().toString()`, `createdAt: new Date().toISOString()`,
`read: false` over the caller-provided fields. -/
def mkNewNotification (p : NotifInput) (now : Nat) : Notification :=
  { id := toString now
    userId := p.userId
    title := p.title
    message := p.message
    type := p.type
    read := false
    createdAt := now
    appointmentId := p.appointmentId }

/-- The `@MedicalApp:notifications` key's content as seen by
`notificationService` (which talks to `AsyncStorage` directly). -/
inductive NCell where
  | absent
  | good (l : List Notification)
  | corrupt
deriving DecidableEq

/-- Failure oracle for one `notificationService` operation: whether its
`AsyncStorage.getItem` / `AsyncStorage.setItem` call throws. -/
structure NEnv where
  readFail : Bool
  writeFail : Bool

/-- The shared read prelude of every `notificationService` operation:
`const stored = await AsyncStorage.getItem(STORAGE_KEY);`
`const allNotifications = stored ? JSON.parse(stored) : [];`
— an I/O or parse error is a thrown exception (`Except.error`). -/
def getStoredNotifications (env : NEnv) (st : NCell) :
    Except Unit (List Notification) :=
  if env.readFail then Except.error ()
  else
    match st with
    | NCell.absent => Except.ok []
    | NCell.good l => Except.ok l
    | NCell.corrupt => Except.error ()

/-- The comparator `(a, b) => new Date(b.createdAt).getTime() - new
Date(a.createdAt).getTime()` as a sort precedence: `a` may come before `b`
iff `a.createdAt ≥ b.createdAt` (descending by creation time). -/
def notifDesc (a b : Notification) : Bool := decide (b.createdAt ≤ a.createdAt)

/-- `notificationService.getNotifications(userId)`: filter the stored list
by user, sort descending by `createdAt`; any error is caught and yields
`[]`. -/
def getNotifications (env : NEnv) (userId : String) (st : NCell) :
    List Notification :=
  match getStoredNotifications env st with
  | Except.error _ => []
  | Except.ok l => (l.filter (fun n => n.userId == userId)).mergeSort notifDesc

/-- `notificationService.createNotification(notification)`: append the new
record and save.  The catch block only logs, so a read or write failure
resolves normally with the stored list unchanged. -/
def createNotification (env : NEnv) (now : Nat) (p : NotifInput) (st : NCell) :
    NCell :=
  match getStoredNotifications env st with
  | Except.error _ => st
  | Except.ok l =>
      if env.writeFail then st else NCell.good (l ++ [mkNewNotification p now])

/-- `notificationService.markAsRead(notificationId)`: rewrite the whole
list with the matching record's `read` set; failures are caught and leave
the stored list unchanged. -/
def markAsRead (env : NEnv) (notificationId : String) (st : NCell) : NCell :=
  match getStoredNotifications env st with
  | Except.error _ => st
  | Except.ok l =>
      if env.writeFail then st
      else NCell.good (l.map (fun n =>
        if n.id == notificationId then { n with read := true } else n))

/-- `notificationService.markAllAsRead(userId)`: rewrite the whole list
with the user's records' `read` set; failures are caught and leave the
stored list unchanged. -/
def markAllAsRead (env : NEnv) (userId : String) (st : NCell) : NCell :=
  match getStoredNotifications env st with
  | Except.error _ => st
  | Except.ok l =>
      if env.writeFail then st
      else NCell.good (l.map (fun n =>
        if n.userId == userId then { n with read := true } else n))

/-- `notificationService.deleteNotification(notificationId)`: save the list
without the matching record; failures are caught and leave the stored list
unchanged. -/
def deleteNotification (env : NEnv) (notificationId : String) (st : NCell) :
    NCell :=
  match getStoredNotifications env st with
  | Except.error _ => st
  | Except.ok l =>
      if env.writeFail then st
      else NCell.good (l.filter (fun n => n.id != notificationId))

/-- `notificationService.getUnreadCount(userId)`: the length of the `!read`
filter of `getNotifications(userId)`. -/
def getUnreadCount (env : NEnv) (userId : String) (st : NCell) : Nat :=
  ((getNotifications env userId st).filter (fun n => !n.read)).length

/-- Membership with multiplicity one: `l` contains `x` exactly once. -/
def containsExactlyOnce {α : Type} (x : α) (l : List α) : Prop :=
  ∃ l₁ l₂, l = l₁ ++ x :: l₂ ∧ x ∉ l₁ ∧ x ∉ l₂

-- ========================================================================
-- Concrete fixtures used by individual counterexamples and witnesses
-- ========================================================================

/-- An `Env` in which only the write of the notifications section fails. -/
def envFailN : Env :=
  { readFail := fun _ => false, writeFail := fun k => k == notificationsKey }

/-- An `Env` in which every medium write fails (reads succeed). -/
def envFailAll : Env :=
  { readFail := fun _ => false, writeFail := fun _ => true }

/-- A concrete `data` section of a parsed backup, providing new
appointments and notifications. -/
def dataEx : JValue :=
  JValue.obj
    [("appointments", JValue.arr [JValue.str "A2"]),
     ("notifications", JValue.arr [JValue.str "N2"])]

/-- A concrete parsed backup `{ data: dataEx }`. -/
def backupEx : JValue := JValue.obj [("data", dataEx)]

/-- An appointment whose `date` string is not in `DD/MM/YYYY` format
(it contains no slash at all). -/
def aptBadDate : Appointment :=
  { id := "a1", patientId := "p1", patientName := "P", doctorId := "d1",
    doctorName := "D", date := some "2025-01-15", time := "10:00",
    specialty := "Cardiologia", status := "pending" }

-- ========================================================================
-- Theorems
-- ========================================================================

/-- Helper: a list made of two copies of `x` does not contain `x` exactly
once. -/
theorem two_copies_not_exactly_once {α : Type} (x : α) :
    ¬ containsExactlyOnce x [x, x] := by
  rintro ⟨l₁, l₂, h, h1, h2⟩
  cases l₁ with
  | nil =>
      rw [List.nil_append] at h
      injection h with hx hrest
      subst hrest
      simp at h2
  | cons a t => simp_all

/-- C2 evidence: an appointment whose date string `"2025-01-15"` does not
parse as `DD/MM/YYYY` is nevertheless counted in the month histogram, in
the bucket `"undefined/undefined"` — `String.prototype.split` never throws
on a string, so the catch branch that the source comments as ignoring
invalid dates is unreachable for string dates — while also being counted
in `totalAppointments` and in the per-status counts. -/
theorem malformed_date_lands_in_month_bucket :
    monthKeyOf (some "2025-01-15") = some "undefined/undefined" ∧
    (getGeneralStatistics [aptBadDate]).appointmentsByMonth "undefined/undefined" = 1 ∧
    (getGeneralStatistics [aptBadDate]).totalAppointments = 1 ∧
    (getGeneralStatistics [aptBadDate]).pendingAppointments = 1 := by
  exact ⟨rfl, rfl, rfl, rfl⟩

/-- C3 counterexample: two notifications created at the same millisecond
instant, from different inputs, receive the same id (`Date.now().toString()`
is a millisecond timestamp, not a collision-resistant identifier). -/
theorem createNotification_same_millisecond_id_collision :
    (mkNewNotification ⟨"u1", "t1", "m1", "general", none⟩ 1700000000000).id =
      (mkNewNotification ⟨"u2", "t2", "m2", "general", none⟩ 1700000000000).id ∧
    (⟨"u1", "t1", "m1", "general", none⟩ : NotifInput) ≠
      ⟨"u2", "t2", "m2", "general", none⟩ := by
  exact ⟨rfl, by decide⟩

/-- C3 amended: `createNotification` assigns the new notification the
id `Date.now().toString()` — the decimal string of the creation
millisecond, so any two notifications created within the same millisecond
receive the same id — sets `createdAt` to the current time and `read` to
`false`, and on a failure-free run appends the new record to the stored
list. -/
theorem createNotification_timestamp_id_fields (p q : NotifInput) (now : Nat)
    (l : List Notification) :
    (mkNewNotification p now).id = toString now ∧
    (mkNewNotification p now).createdAt = now ∧
    (mkNewNotification p now).read = false ∧
    (mkNewNotification p now).id = (mkNewNotification q now).id ∧
    createNotification ⟨false, false⟩ now p (NCell.good l) =
      NCell.good (l ++ [mkNewNotification p now]) := by
  exact ⟨rfl, rfl, rfl, rfl, rfl⟩

/-- C8: on the empty appointment set all three status percentages are `0`
(not undefined), and in general each status percentage computed by
`getGeneralStatistics` equals `count / total * 100` when the total is
positive and `0` when the total is `0`. -/
theorem getGeneralStatistics_percentages (l : List Appointment) :
    ((getGeneralStatistics []).pctConfirmed = 0 ∧
     (getGeneralStatistics []).pctPending = 0 ∧
     (getGeneralStatistics []).pctCancelled = 0) ∧
    ((getGeneralStatistics l).pctConfirmed =
       (if l.length > 0 then
          ((l.filter (fun a => a.status == "confirmed")).length : ℚ) /
            (l.length : ℚ) * 100
        else 0) ∧
     (getGeneralStatistics l).pctPending =
       (if l.length > 0 then
          ((l.filter (fun a => a.status == "pending")).length : ℚ) /
            (l.length : ℚ) * 100
        else 0) ∧
     (getGeneralStatistics l).pctCancelled =
       (if l.length > 0 then
          ((l.filter (fun a => a.status == "cancelled")).length : ℚ) /
            (l.length : ℚ) * 100
        else 0)) := by
  exact ⟨⟨rfl, rfl, rfl⟩, ⟨rfl, rfl, rfl⟩⟩

/-- C10: when the snapshot string parses but its top-level `data` field is
absent or falsy, `restoreFromBackup` resolves without error and leaves the
state (all four sections) unchanged. -/
theorem restoreFromBackup_falsy_data_writes_nothing (env : Env) (now : Nat)
    (b : JValue) (st : State)
    (h : jsGetProp b "data" = Except.ok none ∨
         ∃ d, jsGetProp b "data" = Except.ok (some d) ∧ jsFalsy d = true) :
    restoreFromBackup env now (some b) st = (st, false) := by
  rcases h with h | ⟨d, hd, hf⟩
  · simp [restoreFromBackup, h]
  · simp [restoreFromBackup, hd, hf]

/-- C10 witness: the snapshot string whose parse is the empty object (for
example `JSON.parse` applied to the two-character object literal) has no
`data` field, and restoring it changes nothing and does not throw. -/
theorem restoreFromBackup_falsy_data_witness :
    jsGetProp (JValue.obj []) "data" = Except.ok none ∧
    restoreFromBackup envOK 0 (some (JValue.obj [])) emptyState =
      (emptyState, false) := by
  refine ⟨rfl, ?_⟩
  exact restoreFromBackup_falsy_data_writes_nothing envOK 0 (JValue.obj [])
    emptyState (Or.inl rfl)

/-- C4: `setItem(k, v, ttl?)` followed by `getItem(k)` with no intervening
mutation of `k`, at any instant before a configured TTL has elapsed,
returns `v` (served from the cache entry `setItem` wrote, so even a later
medium failure cannot interfere). -/
theorem setItem_getItem_roundtrip (env env2 : Env) (now now2 : Nat)
    (key : String) (v : JValue) (ttl : Option Nat) (dflt : Option JValue)
    (st : State)
    (hw : env.writeFail key = false)
    (httl : ∀ e, expiryOf now ttl = some e → now2 < e) :
    (getItem env2 now2 key dflt (setItem env now key v ttl st).1).1 = some v := by
  have hvalid : cacheValid ⟨v, now, expiryOf now ttl⟩ now2 = true := by
    unfold cacheValid
    cases h : expiryOf now ttl with
    | none => rfl
    | some e =>
        have he := httl e h
        have hne : e ≠ 0 := by omega
        simp [hne, he]
  unfold setItem
  rw [hw]
  simp only [Bool.false_eq_true, if_false]
  simp [getItem, setKey, hvalid]

/-- C4 witness: a concrete round trip with a five-minute TTL, read one
millisecond after the write. -/
theorem setItem_getItem_roundtrip_witness :
    envOK.writeFail "k" = false ∧
    (∀ e, expiryOf 0 (some 5) = some e → 1 < e) ∧
    (getItem envOK 1 "k" none
        (setItem envOK 0 "k" (JValue.str "v") (some 5) emptyState).1).1 =
      some (JValue.str "v") := by
  refine ⟨rfl, ?_, ?_⟩
  · intro e he
    simp [expiryOf] at he
    omega
  · exact setItem_getItem_roundtrip envOK envOK 0 1 "k" (JValue.str "v")
      (some 5) none emptyState rfl
      (by intro e he; simp [expiryOf] at he; omega)

/-- C5 counterexample: with the falsy default `false` supplied and the key
absent everywhere, `getItem` returns JavaScript `null` (the source returns
`defaultValue || null`, which discards a falsy default), not the given
default. -/
theorem getItem_falsy_default_returns_null :
    (getItem envOK 0 "k" (some (JValue.bool false)) emptyState).1 = none ∧
    (none : Option JValue) ≠ some (JValue.bool false) := by
  exact ⟨rfl, by simp⟩

/-- C5 amended: when the key is absent from the cache and the medium read
finds nothing — or any read failure (medium I/O error, corrupt stored
string) occurs — `getItem` returns `defaultValue || null`: the given
default when it is truthy and `null` otherwise; every failure path is
caught, so `getItem` (a total function here) never throws. -/
theorem getItem_absent_returns_default_or_null (env : Env) (now : Nat)
    (key : String) (dflt : Option JValue) (st : State)
    (h1 : st.cache key = none)
    (h2 : env.readFail key = true ∨ st.medium key = Cell.absent ∨
          st.medium key = Cell.corrupt) :
    (getItem env now key dflt st).1 = defaultOrNull dflt := by
  unfold getItem
  rw [h1]
  unfold readMedium
  rcases h2 with h | h | h <;> simp [h]

/-- C5 witness: a truthy default (the empty array is truthy in JavaScript)
is returned as-is for a key absent from both cache and medium. -/
theorem getItem_absent_default_witness :
    emptyState.cache "k" = none ∧
    emptyState.medium "k" = Cell.absent ∧
    (getItem envOK 0 "k" (some (JValue.arr [])) emptyState).1 =
      defaultOrNull (some (JValue.arr [])) := by
  refine ⟨rfl, rfl, ?_⟩
  exact getItem_absent_returns_default_or_null envOK 0 "k"
    (some (JValue.arr [])) emptyState rfl (Or.inr (Or.inl rfl))

/-- C6 counterexample: adding an appointment that the stored collection
already contains yields a collection containing it twice, not exactly
once (`addAppointment` appends unconditionally). -/
theorem addAppointment_existing_element_twice :
    (getAppointments envOK 2
        (addAppointment envOK 0 1 (JValue.str "apt1")
          { medium := setKey (fun _ => Cell.absent) appointmentsKey
              (Cell.good (JValue.arr [JValue.str "apt1"])),
            cache := fun _ => none }).1).1 =
      some (JValue.arr [JValue.str "apt1", JValue.str "apt1"]) ∧
    ¬ containsExactlyOnce (JValue.str "apt1")
        [JValue.str "apt1", JValue.str "apt1"] := by
  exact ⟨rfl, two_copies_not_exactly_once _⟩

/-- C6 amended: when the collection read by `addAppointment` does not
already contain `x` and the write succeeds, `addAppointment x` followed by
`getAppointments` yields the old collection with `x` appended, which
contains `x` exactly once; in general the append adds one more occurrence
of `x`. -/
theorem addAppointment_fresh_contains_once (env env2 : Env)
    (now1 now2 now3 : Nat) (x : JValue) (st st1 : State) (l : List JValue)
    (hget : getAppointments env now1 st = (some (JValue.arr l), st1))
    (hw : env.writeFail appointmentsKey = false)
    (hx : x ∉ l) :
    (getAppointments env2 now3 (addAppointment env now1 now2 x st).1).1 =
      some (JValue.arr (l ++ [x])) ∧
    containsExactlyOnce x (l ++ [x]) := by
  constructor
  · unfold addAppointment
    rw [hget]
    unfold setItem
    rw [hw]
    simp only [Bool.false_eq_true, if_false]
    simp [getAppointments, getItem, setKey, cacheValid, expiryOf]
  · exact ⟨l, [], rfl, hx, by simp⟩

/-- C6 witness: adding a fresh appointment to an empty store makes it
appear exactly once. -/
theorem addAppointment_fresh_witness :
    getAppointments envOK 0 emptyState = (some (JValue.arr []), emptyState) ∧
    envOK.writeFail appointmentsKey = false ∧
    JValue.str "a" ∉ ([] : List JValue) ∧
    (getAppointments envOK 3
        (addAppointment envOK 0 1 (JValue.str "a") emptyState).1).1 =
      some (JValue.arr [JValue.str "a"]) := by
  refine ⟨rfl, rfl, by simp, ?_⟩
  exact (addAppointment_fresh_contains_once envOK envOK 0 1 3 (JValue.str "a")
    emptyState emptyState [] rfl rfl (by simp)).1

/-- C7: for every user and every stored notification set read without
failure, `getUnreadCount u` equals the number of stored notifications with
`userId = u` and `read = false` (the descending sort inside
`getNotifications` permutes, hence preserves, the count). -/
theorem getUnreadCount_counts_unread (userId : String) (wf : Bool)
    (l : List Notification) :
    getUnreadCount ⟨false, wf⟩ userId (NCell.good l) =
      (l.filter (fun n => n.userId == userId && !n.read)).length := by
  unfold getUnreadCount getNotifications getStoredNotifications
  simp only [Bool.false_eq_true, if_false]
  have hperm :=
    (List.mergeSort_perm (l.filter (fun n => n.userId == userId)) notifDesc).filter
      (fun n => !n.read)
  rw [hperm.length_eq, List.filter_filter]
  simp [Bool.and_comm]

/-- C9: every notification mutation wraps its body in a catch that only
logs, so on any storage failure — read I/O error, corrupt stored string,
or write I/O error — it resolves normally (the model is a total function)
with the stored notification list unchanged; by contrast the repository
write path `storageService.setItem` rethrows a write failure to its
caller (while also leaving the state unchanged). -/
theorem notification_mutations_swallow_failures (env : NEnv) (now : Nat)
    (p : NotifInput) (nid uid : String) (st : NCell)
    (hfail : env.readFail = true ∨ env.writeFail = true ∨ st = NCell.corrupt)
    (senv : Env) (now2 : Nat) (k : String) (v : JValue) (ttl : Option Nat)
    (sst : State)
    (hw : senv.writeFail k = true) :
    createNotification env now p st = st ∧
    markAsRead env nid st = st ∧
    markAllAsRead env uid st = st ∧
    deleteNotification env nid st = st ∧
    setItem senv now2 k v ttl sst = (sst, true) := by
  refine ⟨?_, ?_, ?_, ?_, by simp [setItem, hw]⟩
  all_goals
    rcases hfail with h | h | h
    · simp [createNotification, markAsRead, markAllAsRead, deleteNotification,
            getStoredNotifications, h]
    · cases hr : env.readFail
      · cases st <;>
          simp [createNotification, markAsRead, markAllAsRead,
                deleteNotification, getStoredNotifications, hr, h]
      · simp [createNotification, markAsRead, markAllAsRead,
              deleteNotification, getStoredNotifications, hr]
    · subst h
      cases hr : env.readFail <;>
        simp [createNotification, markAsRead, markAllAsRead,
              deleteNotification, getStoredNotifications, hr]

/-- C9 witness: with a failing read, `createNotification` resolves with the
store unchanged, while `storageService.setItem` under a failing write
rethrows. -/
theorem notification_mutations_witness :
    createNotification ⟨true, false⟩ 0 ⟨"u", "t", "m", "general", none⟩
      NCell.absent = NCell.absent ∧
    setItem envFailAll 0 "k" JValue.null none emptyState = (emptyState, true) := by
  have h := notification_mutations_swallow_failures ⟨true, false⟩ 0
    ⟨"u", "t", "m", "general", none⟩ "n1" "u1" NCell.absent (Or.inl rfl)
    envFailAll 0 "k" JValue.null none emptyState rfl
  exact ⟨h.1, h.2.2.2.2⟩

/-- C1 counterexample: a snapshot whose parse succeeds and provides both an
appointments and a notifications section, restored under a medium whose
notifications write fails, throws with the appointments section already
replaced and the notifications section untouched — a mixed state, so the
apply step is not all-or-nothing. -/
theorem restoreFromBackup_partial_write_mixed_state :
    (restoreFromBackup envFailN 0 (some backupEx) emptyState).2 = true ∧
    (restoreFromBackup envFailN 0 (some backupEx) emptyState).1.medium
      appointmentsKey = Cell.good (JValue.arr [JValue.str "A2"]) ∧
    emptyState.medium appointmentsKey = Cell.absent ∧
    Cell.good (JValue.arr [JValue.str "A2"]) ≠ Cell.absent ∧
    (restoreFromBackup envFailN 0 (some backupEx) emptyState).1.medium
      notificationsKey = Cell.absent ∧
    sectionOr dataEx "notifications" (JValue.arr []) =
      JValue.arr [JValue.str "N2"] ∧
    Cell.absent ≠ Cell.good (JValue.arr [JValue.str "N2"]) := by
  refine ⟨rfl, rfl, rfl, fun h => Cell.noConfusion h, rfl, rfl,
    fun h => Cell.noConfusion h⟩

/-- C1 amended: `restoreFromBackup` parses before applying — a snapshot
string that fails to parse makes it throw with all four sections unchanged
— and when the parse succeeds with a truthy `data` field and all four
section writes succeed, all four sections are replaced (absent or falsy
sections defaulting to empty); the apply step is however not atomic: as
the counterexample shows, a write failing partway through leaves the
earlier sections replaced and the later ones unchanged. -/
theorem restoreFromBackup_parse_then_apply (env : Env) (now : Nat)
    (st : State) (b d : JValue)
    (hd : jsGetProp b "data" = Except.ok (some d))
    (htruthy : jsFalsy d = false)
    (hw1 : env.writeFail appointmentsKey = false)
    (hw2 : env.writeFail notificationsKey = false)
    (hw3 : env.writeFail registeredUsersKey = false)
    (hw4 : env.writeFail settingsKey = false) :
    restoreFromBackup env now none st = (st, true) ∧
    (restoreFromBackup env now (some b) st).2 = false ∧
    (restoreFromBackup env now (some b) st).1.medium appointmentsKey =
      Cell.good (sectionOr d "appointments" (JValue.arr [])) ∧
    (restoreFromBackup env now (some b) st).1.medium notificationsKey =
      Cell.good (sectionOr d "notifications" (JValue.arr [])) ∧
    (restoreFromBackup env now (some b) st).1.medium registeredUsersKey =
      Cell.good (sectionOr d "registeredUsers" (JValue.arr [])) ∧
    (restoreFromBackup env now (some b) st).1.medium settingsKey =
      Cell.good (sectionOr d "settings" (JValue.obj [])) := by
  have k12 : appointmentsKey ≠ notificationsKey := by decide
  have k13 : appointmentsKey ≠ registeredUsersKey := by decide
  have k14 : appointmentsKey ≠ settingsKey := by decide
  have k23 : notificationsKey ≠ registeredUsersKey := by decide
  have k24 : notificationsKey ≠ settingsKey := by decide
  have k34 : registeredUsersKey ≠ settingsKey := by decide
  refine ⟨rfl, ?_⟩
  simp [restoreFromBackup, hd, htruthy, setItem, hw1, hw2, hw3, hw4, setKey,
        k12, k13, k14, k23, k24, k34]

/-- C1 witness: restoring the concrete backup on a failure-free medium
resolves without error and replaces the notifications section with the
snapshot's. -/
theorem restoreFromBackup_parse_then_apply_witness :
    jsGetProp backupEx "data" = Except.ok (some dataEx) ∧
    jsFalsy dataEx = false ∧
    (restoreFromBackup envOK 0 (some backupEx) emptyState).2 = false ∧
    (restoreFromBackup envOK 0 (some backupEx) emptyState).1.medium
      notificationsKey = Cell.good (JValue.arr [JValue.str "N2"]) := by
  have h := restoreFromBackup_parse_then_apply envOK 0 emptyState backupEx
    dataEx rfl rfl rfl rfl rfl rfl
  exact ⟨rfl, rfl, h.2.1, h.2.2.2.1⟩
